/-
Verification of the devbox SDK core (`devbox.go`): a shallow embedding of the
resource handle, its mutation operations, the local cache discipline, the
readiness convergence loop (`WaitForReady`), connection-string construction,
and release creation, together with proofs of the specified properties.

Modelling conventions:
* Go durations (`time.Duration`, int64 nanoseconds) are modelled as `Int`
  measured in nanoseconds; wall-clock time starts at 0 when `WaitForReady`
  computes its deadline, so the absolute deadline equals the resolved timeout.
* The effectful methods of `*Devbox` are embedded as pure functions that take
  the client (as an oracle for transport results) and the cache explicitly
  and return the method result together with the updated handle and cache.
* `float64` backoff arithmetic is modelled exactly over `ℚ`, with the
  `time.Duration(...)` conversion as the floor (Go truncates toward zero;
  the two agree on the nonnegative values reached here).  For the default
  multiplier 1.5 and the default intervals every product is an even integer
  below 2^53, so the exact-rational model coincides with the float64
  computation of the source.
-/
import Mathlib

namespace DevboxSDK

/-- Opaque transport-level errors (the Go `error` values returned by the
Resource Client); only propagated, never inspected, by the core. -/
def Err := String

instance : DecidableEq Err := inferInstanceAs (DecidableEq String)

/-- Network kind of a devbox (`v1alpha2.NetworkType`).  The three named
constants are distinct; `other` stands for any further string value of the
underlying string type (unknown kinds fall through the `switch` default). -/
inductive NetworkType where
  | nodePort
  | tailnet
  | sshGate
  | other (s : String)
deriving DecidableEq

/-- `v1alpha2.NetworkStatus`: the network binding recorded in the status. -/
structure NetworkStatus where
  type : NetworkType
  nodePort : Int          -- int32 in the source
  uniqueID : String
deriving DecidableEq

/-- The observed-phase constant `v1alpha2.DevboxPhaseRunning`.  The constant
itself is declared in the api package (outside `src/`); per the spec the
single recognized ready phase is `Running`, and only equality with it is ever
used. -/
def DevboxPhaseRunning : String := "Running"

/-- `v1alpha2.DevboxStatus` (the fields read by the core). -/
structure DevboxStatus where
  phase : String          -- open set of phase strings reported by the control plane
  network : NetworkStatus
  node : String
deriving DecidableEq

/-- `v1alpha2.Config` (the fields read by the core). -/
structure DevboxConfig where
  workingDir : String
  user : String
deriving DecidableEq

/-- Desired lifecycle state (`v1alpha2.DevboxState`): the closed set used by
the mutation operations. -/
inductive DevboxState where
  | running
  | paused
  | stopped
  | shutdown
deriving DecidableEq

/-- `v1alpha2.DevboxSpec` (the fields read by the core). -/
structure DevboxSpec where
  state : DevboxState
  image : String
  config : DevboxConfig
deriving DecidableEq

/-- `v1alpha2.Devbox`: the resource snapshot (CRD object) held by a handle. -/
structure DevboxCRD where
  name : String
  uid : String
  spec : DevboxSpec
  status : DevboxStatus
deriving DecidableEq

/-- The `Devbox` handle: wraps the currently held snapshot (`d.crd`).  The
`sdk` reference (client + cache) is passed explicitly to each operation. -/
structure Devbox where
  crd : DevboxCRD
deriving DecidableEq

/-- The Local Cache: mapping from resource name to most recent snapshot. -/
def Cache := String → Option DevboxCRD

/-- `cache.Set(name, devbox)`: unconditional upsert (last-write-wins). -/
def cacheSet (name : String) (v : DevboxCRD) (c : Cache) : Cache :=
  fun m => if m = name then some v else c m

/-- `cache.Delete(name)`: removes the entry if present, no-op otherwise. -/
def cacheDelete (name : String) (c : Cache) : Cache :=
  fun m => if m = name then none else c m

/-- `cache.Get(name)`. -/
def cacheGet (name : String) (c : Cache) : Option DevboxCRD := c name

/-- `v1alpha2.DevBoxReleaseSpec`. -/
structure DevBoxReleaseSpec where
  devboxName : String
  version : String
  notes : String
  startDevboxAfterRelease : Bool
deriving DecidableEq

/-- `v1alpha2.DevBoxRelease`: the sub-resource CRD object. -/
structure DevBoxReleaseCRD where
  name : String
  spec : DevBoxReleaseSpec
deriving DecidableEq

/-- The Resource Client collaborator, as an oracle for the outcome of each
transport operation (one fixed outcome per request; `WaitForReady`, whose
repeated `Get`s may observe an evolving remote, uses a call-indexed oracle
instead, see `WaitEnv`). -/
structure Client where
  get : String → Except Err DevboxCRD
  updateState : String → DevboxState → Except Err Unit
  delete : String → Except Err Unit
  createRelease : DevBoxReleaseCRD → Except Err DevBoxReleaseCRD

/-- Read accessor `Name()`. -/
def Devbox.name (d : Devbox) : String := d.crd.name

/-- Read accessor `UID()`. -/
def Devbox.uid (d : Devbox) : String := d.crd.uid

/-- Read accessor `Status()` (observed phase). -/
def Devbox.status (d : Devbox) : String := d.crd.status.phase

/-- Read accessor `State()` (desired state). -/
def Devbox.state (d : Devbox) : DevboxState := d.crd.spec.state

/-- Read accessor `Image()`. -/
def Devbox.image (d : Devbox) : String := d.crd.spec.image

/-- Read accessor `NetworkType()`. -/
def Devbox.networkType (d : Devbox) : NetworkType := d.crd.status.network.type

/-- Read accessor `NodePort()`. -/
def Devbox.nodePort (d : Devbox) : Int := d.crd.status.network.nodePort

/-- Read accessor `NetworkUniqueID()`. -/
def Devbox.networkUniqueID (d : Devbox) : String := d.crd.status.network.uniqueID

/-- Read accessor `Node()`. -/
def Devbox.node (d : Devbox) : String := d.crd.status.node

/-- Read accessor `WorkingDir()`. -/
def Devbox.workingDir (d : Devbox) : String := d.crd.spec.config.workingDir

/-- Read accessor `User()`. -/
def Devbox.user (d : Devbox) : String := d.crd.spec.config.user

/-- `RefreshInfo`: single fetch-by-name; on success replaces the held
snapshot wholesale and upserts the cache; on failure propagates the error
with handle and cache untouched. -/
def Devbox.refreshInfo (d : Devbox) (cl : Client) (cache : Cache) :
    Except Err Unit × Devbox × Cache :=
  match cl.get d.crd.name with
  | .error e => (.error e, d, cache)
  | .ok devbox => (.ok (), ⟨devbox⟩, cacheSet devbox.name devbox cache)

/-- `isReady`: the readiness predicate, phase equality with the single
recognized ready phase. -/
def Devbox.isReady (d : Devbox) : Bool :=
  d.crd.status.phase == DevboxPhaseRunning

/-- `Start`: one desired-state update request for `Running`; returns the
transport outcome, touching neither the held snapshot nor the cache. -/
def Devbox.start (d : Devbox) (cl : Client) (cache : Cache) :
    Except Err Unit × Devbox × Cache :=
  (cl.updateState d.crd.name DevboxState.running, d, cache)

/-- `Pause`: desired-state update request for `Paused`. -/
def Devbox.pause (d : Devbox) (cl : Client) (cache : Cache) :
    Except Err Unit × Devbox × Cache :=
  (cl.updateState d.crd.name DevboxState.paused, d, cache)

/-- `Stop`: desired-state update request for `Stopped`. -/
def Devbox.stop (d : Devbox) (cl : Client) (cache : Cache) :
    Except Err Unit × Devbox × Cache :=
  (cl.updateState d.crd.name DevboxState.stopped, d, cache)

/-- `Shutdown`: desired-state update request for `Shutdown`. -/
def Devbox.shutdown (d : Devbox) (cl : Client) (cache : Cache) :
    Except Err Unit × Devbox × Cache :=
  (cl.updateState d.crd.name DevboxState.shutdown, d, cache)

/-- `Delete`: delete request; only on success removes the cache entry. -/
def Devbox.delete (d : Devbox) (cl : Client) (cache : Cache) :
    Except Err Unit × Devbox × Cache :=
  match cl.delete d.crd.name with
  | .error e => (.error e, d, cache)
  | .ok _ => (.ok (), d, cacheDelete d.crd.name cache)

/-- Go `string(rune(n))`: the one-character string holding the code point
`n`, or the replacement character `U+FFFD` when `n` is not a valid code
point (negative, surrogate, or above `0x10FFFF`). -/
def goStringOfRune (n : Int) : String :=
  if (0 ≤ n ∧ n < 0xD800) ∨ (0xE000 ≤ n ∧ n ≤ 0x10FFFF) then
    String.singleton (Char.ofNat n.toNat)
  else
    String.singleton (Char.ofNat 0xFFFD)

/-- `SSHConnectionString`: pure dispatch on the snapshot's network kind. -/
def Devbox.sshConnectionString (d : Devbox) : String :=
  match d.crd.status.network.type with
  | NetworkType.sshGate => d.crd.status.network.uniqueID ++ "@bja.sealos.run"
  | NetworkType.nodePort =>
      d.crd.spec.config.user ++ "@<node-ip>:" ++
        goStringOfRune d.crd.status.network.nodePort
  | _ => ""

/-- `ReleaseConfig`: caller-supplied release creation parameters. -/
structure ReleaseConfig where
  version : String
  notes : String
  startDevboxAfterRelease : Bool
deriving DecidableEq

/-- The creation request built by `CreateRelease` before submission: derived
name `parent + "-" + version`, spec embedding parent name, version, notes,
and the restart flag. -/
def Devbox.createReleaseRequest (d : Devbox) (cfg : ReleaseConfig) : DevBoxReleaseCRD :=
  { name := d.crd.name ++ "-" ++ cfg.version
    spec :=
      { devboxName := d.crd.name
        version := cfg.version
        notes := cfg.notes
        startDevboxAfterRelease := cfg.startDevboxAfterRelease } }

/-- `CreateRelease`: builds the request and submits it through the client. -/
def Devbox.createRelease (d : Devbox) (cl : Client) (cfg : ReleaseConfig) :
    Except Err DevBoxReleaseCRD :=
  cl.createRelease (d.createReleaseRequest cfg)

/-- `types.WaitForReadyOptions`.  Durations are `Int` nanoseconds; the zero
value means "unset" exactly as in the source's default resolution.  The
`float64` multiplier is modelled over `ℚ`. -/
structure WaitForReadyOptions where
  timeout : Int
  checkInterval : Int
  initialCheckInterval : Int
  maxCheckInterval : Int
  backoffMultiplier : ℚ
  useExponentialBackoff : Option Bool

/-- The options after the default resolution at the top of `WaitForReady`. -/
structure ResolvedWaitOptions where
  timeout : Int
  interval0 : Int
  maxInterval : Int
  mult : ℚ
  useExp : Bool

/-- The default-resolution block of `WaitForReady` (lines 131–160 of
`devbox.go`): fill unset fields with 300s / 200ms / 5s / 1.5 / true, force
backoff off when a positive fixed `checkInterval` is supplied, and pick the
initial interval. -/
def resolveWaitOptions (opts : WaitForReadyOptions) : ResolvedWaitOptions :=
  let timeout := if opts.timeout = 0 then 300 * 1000000000 else opts.timeout
  let initialInterval :=
    if opts.initialCheckInterval = 0 then 200 * 1000000 else opts.initialCheckInterval
  let maxInterval :=
    if opts.maxCheckInterval = 0 then 5 * 1000000000 else opts.maxCheckInterval
  let mult := if opts.backoffMultiplier = 0 then 3 / 2 else opts.backoffMultiplier
  let useExp0 :=
    match opts.useExponentialBackoff with
    | none => true
    | some b => b
  let useExp := if 0 < opts.checkInterval then false else useExp0
  let interval0 :=
    if useExp = false ∧ 0 < opts.checkInterval then opts.checkInterval
    else initialInterval
  { timeout := timeout
    interval0 := interval0
    maxInterval := maxInterval
    mult := mult
    useExp := useExp }

/-- The end-of-iteration interval update of `WaitForReady`:
`interval = time.Duration(float64(interval) * backoffMultiplier)` followed by
the clamp to `maxInterval`, applied only when backoff is enabled.  The float
product is modelled exactly over `ℚ` and the `Duration` conversion as the
floor. -/
def nextInterval (useExp : Bool) (mult : ℚ) (maxInterval : Int) (i : Int) : Int :=
  if useExp then
    let g : Int := ⌊mult * (i : ℚ)⌋
    if maxInterval < g then maxInterval else g
  else i

/-- The sequence of values taken by the loop variable `interval` of
`WaitForReady`: it starts at the resolved initial interval and each
iteration advances it by `nextInterval` (exactly the update `waitLoop`
performs on its `interval` argument). -/
def intervalSeq (useExp : Bool) (mult : ℚ) (maxInterval i0 : Int) : Nat → Int
  | 0 => i0
  | n + 1 => nextInterval useExp mult maxInterval (intervalSeq useExp mult maxInterval i0 n)

/-- The environment a `WaitForReady` run unfolds against:
`refresh k` is the outcome of the `k`-th `client.Get` issued by
`RefreshInfo` (call-indexed, since the remote resource evolves between
polls); `refreshDur k` is the wall-clock time that call consumes;
`cancel k` is `some e` when the caller's context fires (with cause `e`)
during the `k`-th inter-poll sleep, and `none` when the sleep completes. -/
structure WaitEnv where
  refresh : Nat → Except Err DevboxCRD
  refreshDur : Nat → Int
  cancel : Nat → Option Err

/-- Result of a `WaitForReady` run: success, the `TimeoutError` carrying the
configured timeout, a propagated transport error, or the context's
cancellation cause. -/
inductive WaitResult where
  | success
  | timeoutErr (timeout : Int)
  | transportErr (e : Err)
  | canceledErr (e : Err)
deriving DecidableEq

/-- The `for` loop of `WaitForReady`, one constructor-step per iteration,
with fuel for termination (`none` = fuel exhausted; the real loop has no
iteration bound, so every theorem about a completed run holds for every
sufficient fuel).  State: `k` the number of refreshes already performed,
`t` the current wall-clock time (deadline check reads it; refresh and sleep
advance it), `interval` the current inter-poll interval, `d`/`cache` the
handle and cache being updated by each inlined `RefreshInfo`. -/
def waitLoop (env : WaitEnv) (useExp : Bool) (mult : ℚ) (maxInterval timeout : Int) :
    Nat → Nat → Int → Int → Devbox → Cache → Option (WaitResult × Devbox × Cache)
  | 0, _, _, _, _, _ => none
  | fuel + 1, k, t, interval, d, cache =>
    if timeout < t then some (.timeoutErr timeout, d, cache)
    else
      match env.refresh k with
      | .error e => some (.transportErr e, d, cache)
      | .ok crd =>
        let d' : Devbox := ⟨crd⟩
        let cache' := cacheSet crd.name crd cache
        if d'.isReady then some (.success, d', cache')
        else
          match env.cancel k with
          | some e => some (.canceledErr e, d', cache')
          | none =>
            waitLoop env useExp mult maxInterval timeout fuel (k + 1)
              (t + env.refreshDur k + interval)
              (nextInterval useExp mult maxInterval interval) d' cache'

/-- `WaitForReady`: resolve defaults, set `deadline = now + timeout`
(time starts at 0, so the deadline is the resolved timeout), and run the
loop from the resolved initial interval. -/
def Devbox.waitForReady (d : Devbox) (env : WaitEnv) (opts : WaitForReadyOptions)
    (cache : Cache) (fuel : Nat) : Option (WaitResult × Devbox × Cache) :=
  let r := resolveWaitOptions opts
  waitLoop env r.useExp r.mult r.maxInterval r.timeout fuel 0 0 r.interval0 d cache

/-! Concrete fixtures used by witnesses and counterexamples. -/

/-- A snapshot whose phase is not the ready phase (NodePort network,
bound port 2222, user `u`). -/
def crdPending : DevboxCRD :=
  { name := "dev"
    uid := "uid-1"
    spec :=
      { state := DevboxState.stopped
        image := "img"
        config := { workingDir := "/w", user := "u" } }
    status :=
      { phase := "Pending"
        network := { type := NetworkType.nodePort, nodePort := 2222, uniqueID := "u1" }
        node := "n1" } }

/-- A handle holding `crdPending`. -/
def dev0 : Devbox := ⟨crdPending⟩

/-- `crdPending` with an SSHGate network. -/
def devGate : Devbox :=
  ⟨{ crdPending with
      status :=
        { crdPending.status with
            network := { crdPending.status.network with type := NetworkType.sshGate } } }⟩

/-- `crdPending` with an unrecognized network kind. -/
def devOther : Devbox :=
  ⟨{ crdPending with
      status :=
        { crdPending.status with
            network := { crdPending.status.network with type := NetworkType.other "Mesh" } } }⟩

/-- A client whose every transport operation succeeds. -/
def clientOk : Client :=
  { get := fun _ => .ok crdPending
    updateState := fun _ _ => .ok ()
    delete := fun _ => .ok ()
    createRelease := fun r => .ok r }

/-- A client whose delete fails at the transport. -/
def clientDelFail : Client :=
  { clientOk with delete := fun _ => .error "boom" }

/-- A client whose get fails at the transport. -/
def clientGetFail : Client :=
  { clientOk with get := fun _ => .error "netdown" }

/-- The empty cache. -/
def emptyCache : Cache := fun _ => none

/-- A cache pre-populated for name `dev`. -/
def cacheX : Cache := cacheSet "dev" crdPending emptyCache

/-- Environment whose polls always find the resource not yet ready, with no
cancellation and instantaneous refreshes. -/
def envNeverReady : WaitEnv :=
  { refresh := fun _ => .ok crdPending
    refreshDur := fun _ => 0
    cancel := fun _ => none }

/-- Environment whose first sleep is interrupted by cancellation. -/
def envCancel : WaitEnv :=
  { envNeverReady with
      refreshDur := fun _ => 2
      cancel := fun _ => some "canceled" }

/-- Environment whose refreshes fail at the transport. -/
def envGetFail : WaitEnv :=
  { envNeverReady with refresh := fun _ => .error "netdown" }

/-- The all-unset options record (every duration 0, multiplier 0, backoff
flag nil): resolution fills in every default. -/
def defaultWaitOptions : WaitForReadyOptions :=
  { timeout := 0
    checkInterval := 0
    initialCheckInterval := 0
    maxCheckInterval := 0
    backoffMultiplier := 0
    useExponentialBackoff := none }

/-! Theorems for the claims. -/

/-- C9: `CreateRelease` derives the sub-resource's request name as the
parent's name, the fixed separator `-`, and the supplied version, and
submits exactly that request; on parent `abc` with version `1.0` the derived
name is `abc-1.0`. -/
theorem createRelease_derived_name (d : Devbox) (cl : Client) (cfg : ReleaseConfig) :
    (Devbox.createReleaseRequest d cfg).name = d.crd.name ++ "-" ++ cfg.version ∧
    (Devbox.createReleaseRequest d cfg).spec.devboxName = d.crd.name ∧
    (Devbox.createReleaseRequest d cfg).spec.version = cfg.version ∧
    Devbox.createRelease d cl cfg = cl.createRelease (d.createReleaseRequest cfg) ∧
    (Devbox.createReleaseRequest ⟨{ crdPending with name := "abc" }⟩
        { version := "1.0", notes := "", startDevboxAfterRelease := false }).name = "abc-1.0" := by
  exact ⟨rfl, rfl, rfl, rfl, by decide⟩

/-- C10: `Start`, `Pause`, `Stop`, and `Shutdown` return the held snapshot
unchanged (the handle after the call is the handle before it), so every read
accessor returns the same value immediately after a successful mutation call
as immediately before it. -/
theorem mutations_preserve_snapshot (d : Devbox) (cl : Client) (cache : Cache) :
    (d.start cl cache).2.1 = d ∧
    (d.pause cl cache).2.1 = d ∧
    (d.stop cl cache).2.1 = d ∧
    (d.shutdown cl cache).2.1 = d ∧
    (d.start cl cache).2.1.name = d.name ∧
    (d.start cl cache).2.1.status = d.status ∧
    (d.start cl cache).2.1.state = d.state ∧
    (d.start cl cache).2.1.networkType = d.networkType ∧
    (d.pause cl cache).2.1.status = d.status ∧
    (d.stop cl cache).2.1.status = d.status ∧
    (d.shutdown cl cache).2.1.status = d.status := by
  exact ⟨rfl, rfl, rfl, rfl, rfl, rfl, rfl, rfl, rfl, rfl, rfl⟩

/-- C1 counterexample: a successful `Start` does not populate the Local
Cache — starting from the empty cache, the call succeeds yet the entry for
the resource's name is still absent afterwards.  So it is not the case that
every successful state-changing operation updates the cache. -/
theorem start_success_cache_not_populated :
    (dev0.start clientOk emptyCache).1 = Except.ok () ∧
    cacheGet "dev" (dev0.start clientOk emptyCache).2.2 = none := by
  exact ⟨rfl, rfl⟩

/-- C1 (amended): among the state-changing operations only `Delete` updates
the Local Cache — `Start`, `Pause`, `Stop`, and `Shutdown` leave the cache
unchanged even on success, while a successful `Delete` removes the entry for
the handle's name. -/
theorem mutation_cache_effects (d : Devbox) (cl : Client) (cache : Cache) :
    (d.start cl cache).2.2 = cache ∧
    (d.pause cl cache).2.2 = cache ∧
    (d.stop cl cache).2.2 = cache ∧
    (d.shutdown cl cache).2.2 = cache ∧
    (cl.delete d.crd.name = .ok () →
      (d.delete cl cache).2.2 = cacheDelete d.crd.name cache ∧
      cacheGet d.crd.name (d.delete cl cache).2.2 = none) := by
  refine ⟨rfl, rfl, rfl, rfl, fun h => ?_⟩
  unfold Devbox.delete
  rw [h]
  exact ⟨rfl, by simp [cacheGet, cacheDelete]⟩

/-- Witness for `mutation_cache_effects` at concrete inputs. -/
theorem mutation_cache_effects_witness :
    (dev0.start clientOk emptyCache).2.2 = emptyCache ∧
    cacheGet "dev" (dev0.delete clientOk emptyCache).2.2 = none := by
  exact ⟨(mutation_cache_effects dev0 clientOk emptyCache).1,
    ((mutation_cache_effects dev0 clientOk emptyCache).2.2.2.2 rfl).2⟩

/-- C8: `Delete` removes the cache entry for the handle's name only when the
transport delete succeeds; when the transport delete fails, the error is
returned and the whole cache — in particular the entry for that name — is
exactly what it was before the call. -/
theorem delete_cache_only_on_success (d : Devbox) (cl : Client) (cache : Cache) :
    (∀ e, cl.delete d.crd.name = .error e →
      (d.delete cl cache).1 = .error e ∧
      (d.delete cl cache).2.2 = cache ∧
      cacheGet d.crd.name (d.delete cl cache).2.2 = cacheGet d.crd.name cache) ∧
    (cl.delete d.crd.name = .ok () →
      (d.delete cl cache).1 = .ok () ∧
      cacheGet d.crd.name (d.delete cl cache).2.2 = none) := by
  constructor
  · intro e he
    unfold Devbox.delete
    rw [he]
    exact ⟨rfl, rfl, rfl⟩
  · intro h
    unfold Devbox.delete
    rw [h]
    exact ⟨rfl, by simp [cacheGet, cacheDelete]⟩

/-- Witness for `delete_cache_only_on_success`: a failing transport delete
on a cache pre-populated for `dev` returns the error and leaves the entry
exactly as it was. -/
theorem delete_cache_only_on_success_witness :
    (dev0.delete clientDelFail cacheX).1 = Except.error "boom" ∧
    cacheGet "dev" (dev0.delete clientDelFail cacheX).2.2 = some crdPending := by
  have h := (delete_cache_only_on_success dev0 clientDelFail cacheX).1 "boom" rfl
  exact ⟨h.1, h.2.2.trans rfl⟩

/-- Options with a positive fixed `checkInterval` and the backoff flag
explicitly set to true. -/
def optsFixed : WaitForReadyOptions :=
  { defaultWaitOptions with
      checkInterval := 1000000000
      useExponentialBackoff := some true }

/-- With backoff disabled the interval update is the identity, so the
sequence of inter-poll intervals is constant. -/
lemma intervalSeq_const (mult : ℚ) (mx i0 : Int) :
    ∀ n, intervalSeq false mult mx i0 n = i0
  | 0 => rfl
  | n + 1 => by
    rw [intervalSeq, intervalSeq_const mult mx i0 n]
    rfl

/-- C5: a positive `checkInterval` forces backoff off regardless of the
explicit flag, becomes the initial interval, and — since the disabled-backoff
interval update is the identity applied by the loop each iteration — every
inter-poll interval equals `checkInterval`. -/
theorem fixed_interval_override (opts : WaitForReadyOptions)
    (h : 0 < opts.checkInterval) :
    (resolveWaitOptions opts).useExp = false ∧
    (resolveWaitOptions opts).interval0 = opts.checkInterval ∧
    (∀ i, nextInterval (resolveWaitOptions opts).useExp (resolveWaitOptions opts).mult
      (resolveWaitOptions opts).maxInterval i = i) ∧
    (∀ n, intervalSeq (resolveWaitOptions opts).useExp (resolveWaitOptions opts).mult
      (resolveWaitOptions opts).maxInterval (resolveWaitOptions opts).interval0 n =
      opts.checkInterval) := by
  have hu : (resolveWaitOptions opts).useExp = false := by
    simp [resolveWaitOptions, h]
  have hi : (resolveWaitOptions opts).interval0 = opts.checkInterval := by
    simp [resolveWaitOptions, h]
  refine ⟨hu, hi, ?_, ?_⟩
  · intro i
    rw [hu]
    rfl
  · intro n
    rw [hu, hi, intervalSeq_const]

/-- Witness for `fixed_interval_override` at `checkInterval = 1s`,
`useExponentialBackoff = some true`. -/
theorem fixed_interval_override_witness :
    (resolveWaitOptions optsFixed).useExp = false ∧
    intervalSeq (resolveWaitOptions optsFixed).useExp (resolveWaitOptions optsFixed).mult
      (resolveWaitOptions optsFixed).maxInterval (resolveWaitOptions optsFixed).interval0 3 =
      1000000000 := by
  have h := fixed_interval_override optsFixed (by decide)
  exact ⟨h.1, h.2.2.2 3⟩

/-- One default-configuration backoff step never shrinks the interval and
never exceeds the 5s ceiling. -/
lemma nextInterval_default_bounds (i : Int) (h0 : 0 ≤ i) (h1 : i ≤ 5 * 1000000000) :
    i ≤ nextInterval true (3 / 2) (5 * 1000000000) i ∧
    nextInterval true (3 / 2) (5 * 1000000000) i ≤ 5 * 1000000000 := by
  have hig : i ≤ ⌊(3 / 2 : ℚ) * (i : ℚ)⌋ := by
    rw [Int.le_floor]
    have hq : (0 : ℚ) ≤ (i : ℚ) := by exact_mod_cast h0
    nlinarith
  unfold nextInterval
  by_cases hc : (5 * 1000000000 : Int) < ⌊(3 / 2 : ℚ) * (i : ℚ)⌋
  · simp only [if_true, if_pos hc]
    exact ⟨h1, le_refl _⟩
  · simp only [if_true, if_neg hc]
    exact ⟨hig, le_of_not_lt hc⟩

/-- The default-configuration interval sequence stays within
`[0, 5 * 10^9]` nanoseconds. -/
lemma intervalSeq_default_invariant :
    ∀ n, 0 ≤ intervalSeq true (3 / 2) (5 * 1000000000) (200 * 1000000) n ∧
      intervalSeq true (3 / 2) (5 * 1000000000) (200 * 1000000) n ≤ 5 * 1000000000
  | 0 => by constructor <;> decide
  | n + 1 => by
    have ih := intervalSeq_default_invariant n
    have h := nextInterval_default_bounds _ ih.1 ih.2
    rw [intervalSeq]
    exact ⟨le_trans ih.1 h.1, h.2⟩

/-- Exact evaluation of one default backoff step: when `3 * a = 2 * b` the
floor of `1.5 * a` is exactly `b`. -/
lemma floor_three_halves (a b : Int) (h : 3 * a = 2 * b) :
    ⌊(3 / 2 : ℚ) * (a : ℚ)⌋ = b := by
  have hq : (3 / 2 : ℚ) * (a : ℚ) = (b : ℚ) := by
    have h3 : ((3 * a : Int) : ℚ) = ((2 * b : Int) : ℚ) := by rw [h]
    push_cast at h3
    linarith
  rw [hq, Int.floor_intCast]

/-- Evaluation of `nextInterval` in the default configuration at an exact
step below the ceiling. -/
lemma nextInterval_default_eval (a b : Int) (h : 3 * a = 2 * b)
    (hb : ¬ 5 * 1000000000 < b) :
    nextInterval true (3 / 2) (5 * 1000000000) a = b := by
  unfold nextInterval
  rw [floor_three_halves a b h]
  have hb2 : ¬ (5000000000 : Int) < b := by omega
  simp [hb2]

/-- C4: with every option unset the resolution enables backoff with initial
interval 200ms, ceiling 5s, multiplier 1.5; the interval sequence the loop's
interval variable takes starts at 200ms, then 300ms, then 450ms, each
iteration grows it by the multiplier clamped at the ceiling, it is
monotonically non-decreasing, and no interval ever exceeds 5s. -/
theorem backoff_growth_and_ceiling :
    (resolveWaitOptions defaultWaitOptions).useExp = true ∧
    (resolveWaitOptions defaultWaitOptions).interval0 = 200 * 1000000 ∧
    (resolveWaitOptions defaultWaitOptions).maxInterval = 5 * 1000000000 ∧
    (resolveWaitOptions defaultWaitOptions).mult = 3 / 2 ∧
    intervalSeq true (3 / 2) (5 * 1000000000) (200 * 1000000) 0 = 200 * 1000000 ∧
    intervalSeq true (3 / 2) (5 * 1000000000) (200 * 1000000) 1 = 300 * 1000000 ∧
    intervalSeq true (3 / 2) (5 * 1000000000) (200 * 1000000) 2 = 450 * 1000000 ∧
    (∀ n, intervalSeq true (3 / 2) (5 * 1000000000) (200 * 1000000) (n + 1) =
      nextInterval true (3 / 2) (5 * 1000000000)
        (intervalSeq true (3 / 2) (5 * 1000000000) (200 * 1000000) n)) ∧
    (∀ n, intervalSeq true (3 / 2) (5 * 1000000000) (200 * 1000000) n ≤
      intervalSeq true (3 / 2) (5 * 1000000000) (200 * 1000000) (n + 1)) ∧
    (∀ n, intervalSeq true (3 / 2) (5 * 1000000000) (200 * 1000000) n ≤ 5 * 1000000000) := by
  have e1 : intervalSeq true (3 / 2) (5 * 1000000000) (200 * 1000000) 1 = 300 * 1000000 := by
    show nextInterval true (3 / 2) (5 * 1000000000) (200 * 1000000) = 300 * 1000000
    exact nextInterval_default_eval _ _ (by norm_num) (by norm_num)
  have e2 : intervalSeq true (3 / 2) (5 * 1000000000) (200 * 1000000) 2 = 450 * 1000000 := by
    have h2 : intervalSeq true (3 / 2) (5 * 1000000000) (200 * 1000000) 2 =
        nextInterval true (3 / 2) (5 * 1000000000)
          (intervalSeq true (3 / 2) (5 * 1000000000) (200 * 1000000) 1) := rfl
    rw [h2, e1]
    exact nextInterval_default_eval _ _ (by norm_num) (by norm_num)
  refine ⟨rfl, rfl, rfl, by simp [resolveWaitOptions, defaultWaitOptions], rfl, e1, e2,
    fun n => rfl, ?_, ?_⟩
  · intro n
    have ih := intervalSeq_default_invariant n
    have h := nextInterval_default_bounds _ ih.1 ih.2
    rw [intervalSeq]
    exact h.1
  · intro n
    exact (intervalSeq_default_invariant n).2

/-- Any completed `waitLoop` run that returns a `TimeoutError` carries
exactly the configured timeout value. -/
lemma waitLoop_timeout_carries_config (env : WaitEnv) (useExp : Bool) (mult : ℚ)
    (maxInterval timeout : Int) :
    ∀ (fuel k : Nat) (t interval : Int) (d : Devbox) (cache : Cache)
      (x : Int) (d' : Devbox) (c' : Cache),
      waitLoop env useExp mult maxInterval timeout fuel k t interval d cache =
        some (.timeoutErr x, d', c') → x = timeout := by
  intro fuel
  induction fuel with
  | zero =>
    intro k t interval d cache x d' c' h
    simp [waitLoop] at h
  | succ n ih =>
    intro k t interval d cache x d' c' h
    rw [waitLoop] at h
    by_cases ht : timeout < t
    · rw [if_pos ht] at h
      simp only [Option.some.injEq, Prod.mk.injEq, WaitResult.timeoutErr.injEq] at h
      exact h.1.symm
    · rw [if_neg ht] at h
      cases hr : env.refresh k with
      | error e =>
        simp only [hr] at h
        simp at h
      | ok crd =>
        simp only [hr] at h
        by_cases hready : Devbox.isReady ⟨crd⟩
        · simp [hready] at h
        · simp only [Bool.not_eq_true] at hready
          simp only [hready, Bool.false_eq_true, if_false] at h
          cases hc : env.cancel k with
          | some e =>
            simp only [hc] at h
            simp at h
          | none =>
            simp only [hc] at h
            exact ih _ _ _ _ _ x d' c' h

/-- C3: the deadline is checked before every poll: at a loop state whose
current time is past the deadline the loop returns the `TimeoutError`
carrying the configured timeout for every environment whatsoever (so no
refresh is attempted past the deadline — the result does not depend on the
refresh oracle); conversely, any run returning a `TimeoutError` carries
exactly the configured timeout; and an unset timeout resolves to the 300s
default. -/
theorem deadline_before_poll (env : WaitEnv) (useExp : Bool) (mult : ℚ)
    (maxInterval timeout : Int) (fuel k : Nat) (t interval : Int)
    (d : Devbox) (cache : Cache) :
    (timeout < t →
      waitLoop env useExp mult maxInterval timeout (fuel + 1) k t interval d cache =
        some (.timeoutErr timeout, d, cache)) ∧
    (∀ (x : Int) (d' : Devbox) (c' : Cache),
      waitLoop env useExp mult maxInterval timeout fuel k t interval d cache =
        some (.timeoutErr x, d', c') → x = timeout) ∧
    (∀ o : WaitForReadyOptions, o.timeout = 0 →
      (resolveWaitOptions o).timeout = 300 * 1000000000) := by
  refine ⟨fun ht => ?_, fun x d' c' h =>
    waitLoop_timeout_carries_config env useExp mult maxInterval timeout
      fuel k t interval d cache x d' c' h, fun o ho => ?_⟩
  · rw [waitLoop, if_pos ht]
  · simp [resolveWaitOptions, ho]

/-- Witness for `deadline_before_poll`: one nanosecond past a 300s deadline
the loop (against the never-ready environment) times out carrying 300s, and
the all-unset options resolve to the 300s timeout. -/
theorem deadline_before_poll_witness :
    waitLoop envNeverReady true (3 / 2) (5 * 1000000000) (300 * 1000000000) 1 0
      (300 * 1000000000 + 1) (200 * 1000000) dev0 emptyCache =
      some (.timeoutErr (300 * 1000000000), dev0, emptyCache) ∧
    (resolveWaitOptions defaultWaitOptions).timeout = 300 * 1000000000 := by
  have h := deadline_before_poll envNeverReady true (3 / 2) (5 * 1000000000)
    (300 * 1000000000) 0 0 (300 * 1000000000 + 1) (200 * 1000000) dev0 emptyCache
  exact ⟨h.1 (by decide), h.2.2 defaultWaitOptions rfl⟩

/-- C6: if the context fires during the inter-poll sleep of a round the loop
reached (its deadline check passed, the refresh succeeded, the resource was
not yet ready), the loop returns the cancellation cause — not a
`TimeoutError` — even when the deadline passes during that very round (the
hypothesis `hdead` states that by the end of the round the deadline has
passed; the conclusion does not depend on it). -/
theorem cancellation_beats_timeout (env : WaitEnv) (useExp : Bool) (mult : ℚ)
    (maxInterval timeout : Int) (fuel k : Nat) (t interval : Int)
    (d : Devbox) (cache : Cache) (crd : DevboxCRD) (e : Err)
    (ht : ¬ timeout < t)
    (hr : env.refresh k = .ok crd)
    (hready : Devbox.isReady ⟨crd⟩ = false)
    (hc : env.cancel k = some e)
    (_hdead : timeout < t + env.refreshDur k + interval) :
    waitLoop env useExp mult maxInterval timeout (fuel + 1) k t interval d cache =
      some (.canceledErr e, ⟨crd⟩, cacheSet crd.name crd cache) := by
  rw [waitLoop, if_neg ht]
  simp [hr, hready, hc]

/-- Witness for `cancellation_beats_timeout`: with timeout 5ns, entering the
round at t = 3ns, a 2ns refresh and 4ns interval (so the deadline passes
during the sleep), a cancellation during the sleep yields its cause. -/
theorem cancellation_beats_timeout_witness :
    waitLoop envCancel true (3 / 2) (5 * 1000000000) 5 1 0 3 4 dev0 emptyCache =
      some (.canceledErr "canceled", ⟨crdPending⟩, cacheSet "dev" crdPending emptyCache) := by
  exact cancellation_beats_timeout envCancel true (3 / 2) (5 * 1000000000) 5 0 0 3 4
    dev0 emptyCache crdPending "canceled" (by decide) rfl (by decide) rfl (by decide)

/-- C7: a refresh that fails at the transport aborts the wait immediately
with that exact error (handle and cache untouched, no retry, not treated as
"not yet ready"); and `RefreshInfo` itself propagates any `Get` error
verbatim, leaving handle and cache unchanged. -/
theorem transport_error_aborts (env : WaitEnv) (useExp : Bool) (mult : ℚ)
    (maxInterval timeout : Int) (fuel k : Nat) (t interval : Int)
    (d : Devbox) (cache : Cache) (e : Err)
    (ht : ¬ timeout < t)
    (hr : env.refresh k = .error e) :
    waitLoop env useExp mult maxInterval timeout (fuel + 1) k t interval d cache =
      some (.transportErr e, d, cache) ∧
    (∀ (d0 : Devbox) (cl : Client) (c0 : Cache), cl.get d0.crd.name = .error e →
      Devbox.refreshInfo d0 cl c0 = (.error e, d0, c0)) := by
  constructor
  · rw [waitLoop, if_neg ht]
    simp [hr]
  · intro d0 cl c0 hg
    unfold Devbox.refreshInfo
    rw [hg]

/-- Witness for `transport_error_aborts` against the failing-get
environment and client. -/
theorem transport_error_aborts_witness :
    waitLoop envGetFail true (3 / 2) (5 * 1000000000) 5 1 0 0 4 dev0 emptyCache =
      some (.transportErr "netdown", dev0, emptyCache) ∧
    Devbox.refreshInfo dev0 clientGetFail emptyCache =
      (Except.error "netdown", dev0, emptyCache) := by
  have h := transport_error_aborts envGetFail true (3 / 2) (5 * 1000000000) 5 0 0 0 4
    dev0 emptyCache "netdown" (by decide) rfl
  exact ⟨h.1, h.2 dev0 clientGetFail emptyCache rfl⟩

/-- C2: evaluation of `SSHConnectionString` at the failing input: for a
NodePort network with user `u` and bound port 2222 the code renders the port
as the single character with code point 2222, not as the decimal string
`2222`; the gateway branch and the default branch behave as specified. -/
theorem sshConnectionString_eval :
    Devbox.sshConnectionString dev0 =
      "u@<node-ip>:" ++ String.singleton (Char.ofNat 2222) ∧
    Devbox.sshConnectionString dev0 ≠ "u@<node-ip>:2222" ∧
    Devbox.sshConnectionString devGate = "u1@bja.sealos.run" ∧
    Devbox.sshConnectionString devOther = "" := by
  exact ⟨by decide, by decide, by decide, by decide⟩

end DevboxSDK
